import Mathlib

/-!
Verification development for `radio_beam/multiple_beams.py` (the `Beams`
collection type).  The Python source is shallowly embedded: astropy
quantities become pairs of an array value and a symbolic unit, numpy
array-likes become an inductive distinguishing 0-dimensional scalars from
1-dimensional vectors, and every fallible operation returns `Except`.
Components imported from `beam.py` (which is not part of the excerpt) —
`Beam`, `_to_area`, `SIGMA_TO_FWHM` — are modelled from the specification's
description of them as external collaborators.
-/

set_option autoImplicit false

namespace RadioBeam

/-- Python exception kinds that the embedded code can raise. -/
inductive PyErr
  | typeError
  | valueError
  | attributeError
  | unitConversionError
  | indexError
  deriving DecidableEq, Repr

instance {ε α : Type} [DecidableEq ε] [DecidableEq α] : DecidableEq (Except ε α) := fun x y =>
  match x, y with
  | .error a, .error b =>
    if h : a = b then isTrue (congrArg Except.error h)
    else isFalse (fun hc => h (Except.error.inj hc))
  | .ok a, .ok b =>
    if h : a = b then isTrue (congrArg Except.ok h)
    else isFalse (fun hc => h (Except.ok.inj hc))
  | .error _, .ok _ => isFalse (fun hc => Except.noConfusion hc)
  | .ok _, .error _ => isFalse (fun hc => Except.noConfusion hc)

/-- A value stored in one cell of a binary table: numeric or textual.
Numeric content throughout the development is modelled with exact
rationals standing in for the source's IEEE doubles. -/
inductive Cell
  | num (q : ℚ)
  | str (s : String)
  deriving DecidableEq, Repr

/-- One element of the `meta` sequence.  `dict` models a Python mapping
(association list of column name to cell value); `raw` models an arbitrary
non-mapping element, which the `meta` setter never inspects. -/
inductive MetaVal
  | dict (kvs : List (String × Cell))
  | raw (z : ℤ)
  deriving DecidableEq, Repr

/-- Symbolic astropy unit expressions as they arise in the source:
base units, products (from `q * u.deg`), and square roots (from
`np.sqrt` applied to a quantity). -/
inductive AUnit
  | deg
  | arcsec
  | sr
  | dimensionless
  | jy
  | mulU (a b : AUnit)
  | sqrtU (a : AUnit)
  deriving DecidableEq, Repr

/-- The power of the plane-angle dimension carried by a unit expression
(`sr` counts as angle squared, as in astropy's dimensional analysis). -/
def AUnit.angleDim : AUnit → ℚ
  | .deg => 1
  | .arcsec => 1
  | .sr => 2
  | .dimensionless => 0
  | .jy => 0
  | .mulU a b => a.angleDim + b.angleDim
  | .sqrtU a => a.angleDim / 2

/-- The power of any non-angle dimension (jansky here) carried by a unit
expression. -/
def AUnit.otherDim : AUnit → ℚ
  | .deg => 0
  | .arcsec => 0
  | .sr => 0
  | .dimensionless => 0
  | .jy => 1
  | .mulU a b => a.otherDim + b.otherDim
  | .sqrtU a => a.otherDim / 2

/-- `u.deg.is_equivalent(x)`: a unit is equivalent to degrees exactly when
its physical dimension is plane angle to the first power (astropy does not
treat bare numbers as angles without an explicit equivalency). -/
def AUnit.isEquivDeg (u : AUnit) : Bool :=
  decide (u.angleDim = 1 ∧ u.otherDim = 0)

/-- A numpy array-like value: either a 0-dimensional scalar (which has no
`len()`) or a 1-dimensional vector. -/
inductive PyArr
  | scalar (x : ℚ)
  | vec (xs : List ℚ)
  deriving DecidableEq, Repr

/-- `len()` of an array-like: defined for vectors, a `TypeError` for
0-dimensional scalars (as in numpy). -/
def pyLen : PyArr → Except PyErr ℕ
  | .scalar _ => .error .typeError
  | .vec xs => .ok xs.length

/-- A value passed for the `majors` / `minors` / `pas` / `areas` arguments:
either a bare numeric sequence (a plain list or ndarray, which has no
`.unit` attribute) or an astropy quantity. -/
inductive ArgIn
  | bare (xs : List ℚ)
  | qty (a : PyArr) (un : AUnit)
  deriving DecidableEq, Repr

/-- Reading `.unit` from an argument: quantities expose their unit, a bare
sequence raises `AttributeError`. -/
def ArgIn.getUnit : ArgIn → Except PyErr AUnit
  | .bare _ => .error .attributeError
  | .qty _ un => .ok un

/-- The underlying array of an argument (a bare list viewed as an array). -/
def ArgIn.arr : ArgIn → PyArr
  | .bare xs => .vec xs
  | .qty a _ => a

/-- `len()` of an argument value. -/
def ArgIn.len : ArgIn → Except PyErr ℕ
  | .bare xs => .ok xs.length
  | .qty a _ => pyLen a

/-- The number of elements an argument carries when it is a sequence
(0-dimensional quantities, for which `len()` raises, are assigned 0; no
successful construction ever involves that case). -/
def ArgIn.length0 : ArgIn → ℕ
  | .bare xs => xs.length
  | .qty (.vec xs) _ => xs.length
  | .qty (.scalar _) _ => 0

/-- Elementwise division of an argument by a dimensionless scalar
(`areas / (2 * np.pi)`); the unit, if any, is unchanged. -/
def ArgIn.divConst (a : ArgIn) (c : ℚ) : ArgIn :=
  match a with
  | .bare xs => .bare (xs.map (· / c))
  | .qty (.vec xs) un => .qty (.vec (xs.map (· / c))) un
  | .qty (.scalar x) un => .qty (.scalar (x / c)) un

/-- Elementwise multiplication of an argument by a dimensionless scalar
(`rad * SIGMA_TO_FWHM`); the unit, if any, is unchanged. -/
def ArgIn.scale (a : ArgIn) (c : ℚ) : ArgIn :=
  match a with
  | .bare xs => .bare (xs.map (· * c))
  | .qty (.vec xs) un => .qty (.vec (xs.map (· * c))) un
  | .qty (.scalar x) un => .qty (.scalar (x * c)) un

/-- The value of `np.pi` as the IEEE double the source computes with,
read as an exact rational. -/
def npPi : ℚ := 3141592653589793 / 10 ^ 15

/-- The value of `np.log(2)` as the IEEE double, read as a rational. -/
def npLn2 : ℚ := 6931471805599453 / 10 ^ 16

/-- Modelled numeric primitive: `np.sqrt` on a rational.  The source
computes in floating point; this stand-in is exact at 0 and at perfect
squares, which are the only points any theorem below evaluates it at, and
is a floor-style approximation elsewhere.  (For negative inputs numpy
produces NaN, which has no rational counterpart; no claim reaches that
case.) -/
def npSqrt (q : ℚ) : ℚ := (Int.sqrt q.num : ℚ) / (Nat.sqrt q.den : ℚ)

/-- `np.sqrt` applied to an argument value: elementwise on the numbers;
for a quantity the unit becomes its square root (astropy's `unit ** 0.5`). -/
def ArgIn.npSqrtA : ArgIn → ArgIn
  | .bare xs => .bare (xs.map npSqrt)
  | .qty (.vec xs) un => .qty (.vec (xs.map npSqrt)) (.sqrtU un)
  | .qty (.scalar x) un => .qty (.scalar (npSqrt x)) (.sqrtU un)

/-- Multiplication by the unit `u.deg`: a bare sequence becomes a quantity
in degrees; a quantity's unit is multiplied by degrees. -/
def ArgIn.timesDeg : ArgIn → ArgIn
  | .bare xs => .qty (.vec xs) .deg
  | .qty a un => .qty a (.mulU un .deg)

/-- `np.zeros_like(x) * u.deg` for the three shapes the source applies it
to.  `np.zeros_like(None)` is the crucial case: `np.asarray(None)` is a
0-dimensional object array, so the result is a 0-dimensional zero, which
astropy then wraps as a scalar quantity in degrees.  For an array or
quantity input the result is a zero-filled array of the same shape (numpy
preserves the `Quantity` subclass and hence the unit, which is then
multiplied by degrees). -/
def zerosLikeTimesDeg : Option ArgIn → PyArr × AUnit
  | none => (.scalar 0, .deg)
  | some (.bare xs) => (.vec (List.replicate xs.length 0), .deg)
  | some (.qty (.vec xs) un) => (.vec (List.replicate xs.length 0), .mulU un .deg)
  | some (.qty (.scalar _) un) => (.scalar 0, .mulU un .deg)

/-- Modelled from the spec: the fixed sigma-to-FWHM scalar conversion
factor `SIGMA_TO_FWHM` lives in `beam.py`, which is outside the excerpt;
§6 describes it as "a fixed scalar conversion factor".  Its true value
√(8 ln 2) is irrational; the IEEE-double value the source computes with is
used as a rational.  No theorem below depends on this value (the inputs
chosen make the factor multiply 0). -/
def SIGMA_TO_FWHM : ℚ := 23548200450309493 / 10 ^ 16

/-- Modelled from the spec: the coefficient of the Gaussian-ellipse
solid-angle formula implemented by `_to_area` in `beam.py` (outside the
excerpt), §6: "pure function (major_sequence, minor_sequence) →
area_sequence".  The physical constant π/(4 ln 2) and the degree-to-radian
scale are irrational; a single rational coefficient stands in for them,
since no claim inspects the backing area values — the claims use only
whether the computation succeeds. -/
def toAreaCoeff : ℚ := npPi ^ 3 / (4 * npLn2 * 32400)

/-- Modelled from the spec: `_to_area(majors, minors)` from `beam.py`
(outside the excerpt) — the area-from-axes utility of §6.  It converts the
elementwise Gaussian-ellipse area to steradians, which requires both
inputs to carry plane-angle units; otherwise the unit conversion fails. -/
def _to_area (mj mn : PyArr × AUnit) : Except PyErr PyArr :=
  if mj.2.isEquivDeg && mn.2.isEquivDeg then
    match mj.1, mn.1 with
    | .vec ms, .vec ns => .ok (.vec ((ms.zip ns).map (fun p => toAreaCoeff * p.1 * p.2)))
    | .scalar x, .scalar y => .ok (.scalar (toAreaCoeff * x * y))
    | _, _ => .error .valueError
  else .error .unitConversionError

/-- The warning text of source line 48. -/
def warnMajors : String := "Assuming major axes has been specified in degrees"

/-- The warning text of source line 54. -/
def warnMinors : String := "Assuming minor axes has been specified in degrees"

/-- The warning text of source line 62. -/
def warnPas : String := "Assuming position angles has been specified in degrees"

/-- The `Beams` instance: the backing quantity value in steradians
(`super().__new__(cls, _to_area(majors, minors).value, u.sr)`, line 73)
together with the attributes the constructor stores on it at lines 74-77
and 79-82: `majors`, `minors`, `pas`, `default_unit`, and `_meta` (written
through the `meta` property setter). -/
structure Beams where
  areaQ : PyArr
  majors : PyArr × AUnit
  minors : PyArr × AUnit
  pas : PyArr × AUnit
  default_unit : AUnit
  meta : List MetaVal
  deriving DecidableEq, Repr

/-- `len(self)` (source lines 97-98): the length of the stored major-axis
array. -/
def Beams.len (b : Beams) : Except PyErr ℕ := pyLen b.majors.1

/-- The `meta` property setter (source lines 90-95): store the new value
when `len(value) == len(self)`, otherwise raise `TypeError`.  The result
pairs the object as observed afterwards with the exception, if any; a
raising assignment leaves the object untouched. -/
def Beams.set_meta (b : Beams) (v : List MetaVal) : Beams × Option PyErr :=
  match pyLen b.majors.1 with
  | .error e => (b, some e)
  | .ok n => if v.length = n then ({ b with meta := v }, none) else (b, some .typeError)

/-- Source lines 37-41: when `areas` is supplied, derive a circular beam
from it — `rad = np.sqrt(areas / (2 * np.pi)) * u.deg`, then reassign
`majors`, `minors` to `rad * SIGMA_TO_FWHM` and `pas` to
`np.zeros_like(areas) * u.deg`.  The reassignment replaces whatever was
passed for `majors`, `minors`, `pas`. -/
def areasStage (majors minors pas areas : Option ArgIn) :
    Option ArgIn × Option ArgIn × Option ArgIn :=
  match areas with
  | none => (majors, minors, pas)
  | some a =>
    let rad := ((a.divConst (2 * npPi)).npSqrtA).timesDeg
    let z := zerosLikeTimesDeg (some a)
    (some (rad.scale SIGMA_TO_FWHM), some (rad.scale SIGMA_TO_FWHM), some (.qty z.1 z.2))

/-- Source lines 44-49 (majors) and 50-55 (minors): if the value is
supplied, read its `.unit` (raising `AttributeError` for a bare sequence);
keep it when angle-equivalent, otherwise warn and multiply by `u.deg`. -/
def coerceAngle (warnMsg : String) (x : Option ArgIn) :
    Except PyErr (Option (PyArr × AUnit) × List String) :=
  match x with
  | none => .ok (none, [])
  | some a =>
    match a.getUnit with
    | .error e => .error e
    | .ok un =>
      if un.isEquivDeg then .ok (some (a.arr, un), [])
      else .ok (some ((a.timesDeg).arr, .mulU un .deg), [warnMsg])

/-- Source lines 56-65, the position-angle block.  If `pas` was supplied
(or produced by the areas branch): first `len(pas) != len(majors)` is
evaluated — `len` of a 0-dimensional value or of `None` raises
`TypeError` — and a mismatch raises `ValueError`; then the unit is checked
and coerced exactly like the axes.  If `pas` is absent, the source
computes `np.zeros_like(pas) * u.deg` with `pas` still bound to `None`,
i.e. a 0-dimensional scalar zero in degrees. -/
def pasStage (p : Option ArgIn) (majors : Option (PyArr × AUnit)) :
    Except PyErr ((PyArr × AUnit) × List String) :=
  match p with
  | none => .ok (zerosLikeTimesDeg none, [])
  | some pa =>
    match pa.len with
    | .error e => .error e
    | .ok np =>
      match majors with
      | none => .error .typeError
      | some mj =>
        match pyLen mj.1 with
        | .error e => .error e
        | .ok nm =>
          if np ≠ nm then .error .valueError
          else
            match pa.getUnit with
            | .error e => .error e
            | .ok un =>
              if un.isEquivDeg then .ok ((pa.arr, un), [])
              else .ok (((pa.timesDeg).arr, .mulU un .deg), [warnPas])

/-- Source lines 68-71: default the minor axes to the major axes when
absent, otherwise require equal lengths (`len` of `None` or of a
0-dimensional value raises `TypeError`, a mismatch raises `ValueError`). -/
def minorsFinal (minors majors : Option (PyArr × AUnit)) :
    Except PyErr (Option (PyArr × AUnit)) :=
  match minors with
  | none => .ok majors
  | some mn =>
    match pyLen mn.1 with
    | .error e => .error e
    | .ok a =>
      match majors with
      | none => .error .typeError
      | some mj =>
        match pyLen mj.1 with
        | .error e => .error e
        | .ok bn => if a ≠ bn then .error .valueError else .ok (some mn)

/-- Source lines 73-84: compute the backing area quantity via `_to_area`
(calling it with `None` raises `TypeError`), store the attributes, and
resolve `meta` — absent metadata is synthesized as one empty dict per beam
(`[{}] * len(self)`, where `len(self)` is `len(self.majors)`), and every
metadata assignment goes through the guarded `meta` setter.  `metaResolve`
is the value assigned at source lines 79-82. -/
def metaResolve (meta0 : Option (List MetaVal)) (mj : PyArr × AUnit) :
    Except PyErr (List MetaVal) :=
  match meta0 with
  | none =>
    match pyLen mj.1 with
    | .error e => .error e
    | .ok n => .ok (List.replicate n (MetaVal.dict []))
  | some mv => .ok mv

/-- The tail of the constructor: `_to_area` and the `super().__new__` call
of source line 73 (calling `_to_area` with `None` raises `TypeError`),
attribute storage (lines 74-77), and the metadata assignment through the
setter (lines 79-82). -/
def finishNew (m2 n3 : Option (PyArr × AUnit)) (p3 : PyArr × AUnit)
    (du : AUnit) (meta0 : Option (List MetaVal)) (ws : List String) :
    Except PyErr (Beams × List String) :=
  match m2, n3 with
  | some mj, some mn =>
    match _to_area mj mn with
    | .error e => .error e
    | .ok areaA =>
      match metaResolve meta0 mj with
      | .error e => .error e
      | .ok mv =>
        match Beams.set_meta ⟨areaA, mj, mn, p3, du, []⟩ mv with
        | (b1, none) => .ok (b1, ws)
        | (_, some e) => .error e
  | _, _ => .error .typeError

/-- `Beams.__new__` (source lines 17-84), assembled from its stages in
source order: the areas branch, unit coercion of majors then minors, the
position-angle block, the minor-axis default and length check, the area
computation, attribute storage, and metadata resolution.  The result pairs
the constructed object with the warnings emitted along the way. -/
def Beams.new (majors0 minors0 pas0 areas0 : Option ArgIn) (default_unit : AUnit)
    (meta0 : Option (List MetaVal)) : Except PyErr (Beams × List String) :=
  match coerceAngle warnMajors (areasStage majors0 minors0 pas0 areas0).1 with
  | .error e => .error e
  | .ok (m2, wsM) =>
    match coerceAngle warnMinors (areasStage majors0 minors0 pas0 areas0).2.1 with
    | .error e => .error e
    | .ok (n2, wsN) =>
      match pasStage (areasStage majors0 minors0 pas0 areas0).2.2 m2 with
      | .error e => .error e
      | .ok (p3, wsP) =>
        match minorsFinal n2 m2 with
        | .error e => .error e
        | .ok n3 => finishNew m2 n3 p3 default_unit meta0 (wsM ++ wsN ++ wsP)

/-- A field of the single-beam value: a scalar or vector quantity, or one
metadata element, or a metadata list (slice and mask views select several
rows). -/
inductive BeamVal
  | qs (x : ℚ) (un : AUnit)
  | qv (xs : List ℚ) (un : AUnit)
  | mOne (m : MetaVal)
  | mList (ms : List MetaVal)
  deriving DecidableEq, Repr

/-- Modelled from the spec: the single-beam value type `Beam` from
`beam.py` (outside the excerpt); §6 describes it as constructed by the
selector from `major`, `minor`, `pa`, `meta`, with its internal structure
opaque to this core. -/
structure Beam where
  major : BeamVal
  minor : BeamVal
  pa : BeamVal
  meta : BeamVal
  deriving DecidableEq, Repr

/-- Attribute lookup on a `Beams` instance for quantity-valued attributes.
The constructor stores exactly the names `majors`, `minors`, `pas` (source
lines 74-76); neither the class nor its `Quantity`/`ndarray` bases define
attributes named `major`, `minor`, or `pa`, so looking those up raises
`AttributeError`. -/
def Beams.getattrQ (b : Beams) (name : String) : Except PyErr (PyArr × AUnit) :=
  if name = "majors" then .ok b.majors
  else if name = "minors" then .ok b.minors
  else if name = "pas" then .ok b.pas
  else .error .attributeError

/-- An index passed to `Beams.__getitem__`: an integer, a slice, an
ndarray (tagged with whether its dtype is boolean) or something else
entirely (a string or a float). -/
inductive PyIndex
  | pyInt (i : ℤ)
  | pySlice (start stop step : Option ℤ)
  | pyArr (isBool : Bool) (mask : List Bool)
  | pyStr (s : String)
  | pyFloat (x : ℚ)
  deriving DecidableEq, Repr

/-- Integer indexing of an array-like, with Python's negative-index
convention; out-of-range indices (and any index into a 0-dimensional
value) raise `IndexError`. -/
def pyIntIndex (a : PyArr) (i : ℤ) : Except PyErr ℚ :=
  match a with
  | .scalar _ => .error .indexError
  | .vec xs =>
    let j := if i < 0 then i + xs.length else i
    if h : 0 ≤ j ∧ j.toNat < xs.length then .ok (xs.get ⟨j.toNat, h.2⟩)
    else .error .indexError

/-- Integer indexing of a Python list, same conventions. -/
def listIntIndex {α : Type} (xs : List α) (d : α) (i : ℤ) : Except PyErr α :=
  let j := if i < 0 then i + xs.length else i
  if 0 ≤ j ∧ j.toNat < xs.length then .ok (xs.getD j.toNat d)
  else .error .indexError

/-- CPython's `slice.indices`: clamp the endpoints to the sequence length
and produce the selected positions in order; a zero step raises
`ValueError`. -/
def pySliceIdx (n : ℕ) (start stop step : Option ℤ) : Except PyErr (List ℕ) :=
  let st := step.getD 1
  if st = 0 then .error .valueError
  else
    let lo : ℤ := if st < 0 then -1 else 0
    let hi : ℤ := if st < 0 then (n : ℤ) - 1 else n
    let adj : Option ℤ → ℤ → ℤ := fun o dflt =>
      match o with
      | none => dflt
      | some v =>
        let v' := if v < 0 then v + n else v
        if v' < lo then lo else if v' > hi then hi else v'
    let a := adj start (if st < 0 then (n : ℤ) - 1 else 0)
    let b := adj stop (if st < 0 then lo else n)
    let count : ℕ :=
      (if st > 0 then (b - a + st - 1) / st else (b - a + st + 1) / st).toNat
    .ok ((List.range count).map (fun k => (a + k * st).toNat))

/-- Slicing of a Python list / 1-dimensional array (a 0-dimensional value
is not subscriptable). -/
def pySliceList {α : Type} (xs : List α) (d : α) (start stop step : Option ℤ) :
    Except PyErr (List α) :=
  match pySliceIdx xs.length start stop step with
  | .error e => .error e
  | .ok is => .ok (is.map (fun i => xs.getD i d))

/-- Slicing of an array-like. -/
def pySliceArr (a : PyArr) (start stop step : Option ℤ) : Except PyErr PyArr :=
  match a with
  | .scalar _ => .error .indexError
  | .vec xs =>
    match pySliceList xs 0 start stop step with
    | .error e => .error e
    | .ok ys => .ok (.vec ys)

/-- Boolean-mask indexing of an array-like (numpy requires the mask length
to match). -/
def pyMaskArr (a : PyArr) (mask : List Bool) : Except PyErr PyArr :=
  match a with
  | .scalar _ => .error .indexError
  | .vec xs =>
    if mask.length = xs.length then
      .ok (.vec (((mask.zip xs).filter (fun p => p.1)).map (fun p => p.2)))
    else .error .indexError

/-- The list of numbers of an array-like value. -/
def arrList : PyArr → List ℚ
  | .scalar x => [x]
  | .vec xs => xs

/-- `Beams.__getitem__` (source lines 106-119).  For an integer or slice
it builds `Beam(major=self.major[view], minor=self.minor[view],
pa=self.pa[view], meta=self.meta[view])`; for an ndarray it first rejects
non-boolean dtypes with `ValueError` and otherwise builds the same call
with the meta filtered by `zip`; the attribute reads of `self.major`,
`self.minor`, `self.pa` are looked up by name.  Any other index type falls
through both `isinstance` branches: the method body ends and Python
returns `None`, modelled as `.ok none`. -/
def Beams.getitem (b : Beams) (view : PyIndex) : Except PyErr (Option Beam) :=
  match view with
  | .pyInt i =>
    match b.getattrQ "major" with
    | .error e => .error e
    | .ok ma =>
      match pyIntIndex ma.1 i with
      | .error e => .error e
      | .ok x =>
        match b.getattrQ "minor" with
        | .error e => .error e
        | .ok na =>
          match pyIntIndex na.1 i with
          | .error e => .error e
          | .ok y =>
            match b.getattrQ "pa" with
            | .error e => .error e
            | .ok pa =>
              match pyIntIndex pa.1 i with
              | .error e => .error e
              | .ok z =>
                match listIntIndex b.meta (MetaVal.dict []) i with
                | .error e => .error e
                | .ok m =>
                  .ok (some ⟨.qs x ma.2, .qs y na.2, .qs z pa.2, .mOne m⟩)
  | .pySlice s e st =>
    match b.getattrQ "major" with
    | .error er => .error er
    | .ok ma =>
      match pySliceArr ma.1 s e st with
      | .error er => .error er
      | .ok xv =>
        match b.getattrQ "minor" with
        | .error er => .error er
        | .ok na =>
          match pySliceArr na.1 s e st with
          | .error er => .error er
          | .ok yv =>
            match b.getattrQ "pa" with
            | .error er => .error er
            | .ok pa =>
              match pySliceArr pa.1 s e st with
              | .error er => .error er
              | .ok zv =>
                match pySliceList b.meta (MetaVal.dict []) s e st with
                | .error er => .error er
                | .ok ms =>
                  .ok (some ⟨.qv (arrList xv) ma.2, .qv (arrList yv) na.2,
                             .qv (arrList zv) pa.2, .mList ms⟩)
  | .pyArr isBool mask =>
    if isBool = false then .error .valueError
    else
      match b.getattrQ "major" with
      | .error e => .error e
      | .ok ma =>
        match pyMaskArr ma.1 mask with
        | .error e => .error e
        | .ok xv =>
          match b.getattrQ "minor" with
          | .error e => .error e
          | .ok na =>
            match pyMaskArr na.1 mask with
            | .error e => .error e
            | .ok yv =>
              match b.getattrQ "pa" with
              | .error e => .error e
              | .ok pa =>
                match pyMaskArr pa.1 mask with
                | .error e => .error e
                | .ok zv =>
                  let ms := ((mask.zip b.meta).filter (fun p => p.1)).map (fun p => p.2)
                  .ok (some ⟨.qv (arrList xv) ma.2, .qv (arrList yv) na.2,
                             .qv (arrList zv) pa.2, .mList ms⟩)
  | .pyStr _ => .ok none
  | .pyFloat _ => .ok none

/-- A FITS binary table: the ordered column names and the rows.  A FITS
row carries a value for every column of its table, so a row is modelled as
a total function from column names to cell values. -/
structure BinTable where
  colnames : List String
  rows : List (String → Cell)

/-- Building `u.Quantity(column, u.arcsec)` from a column of cells:
non-numeric content raises `TypeError`. -/
def cellNum : Cell → Except PyErr ℚ
  | .num q => .ok q
  | .str _ => .error .typeError

/-- A whole column as numbers, or the first conversion error. -/
def cellsToNums (cs : List Cell) : Except PyErr (List ℚ) := cs.mapM cellNum

/-- Source lines 141-143: the per-row metadata dict — every column except
`BMAJ`, `BPA`, `BMIN`, in column order, mapped to the row's value. -/
def metaRow (names : List String) (r : String → Cell) : MetaVal :=
  MetaVal.dict
    (((names.filter (fun k => !(k == "BMAJ" || k == "BPA" || k == "BMIN"))).map
      (fun k => (k, r k))))

/-- The metadata list built by `from_fits_bintable`, one dict per row in
row order. -/
def metaFromTable (t : BinTable) : List MetaVal :=
  t.rows.map (metaRow t.colnames)

/-- `Beams.from_fits_bintable` (source lines 122-145): read the `BMAJ`,
`BMIN`, `BPA` columns as arcsecond quantities, build the per-row metadata
dicts, and hand everything to the constructor. -/
def Beams.from_fits_bintable (t : BinTable) : Except PyErr (Beams × List String) :=
  match cellsToNums (t.rows.map (fun r => r "BMAJ")) with
  | .error e => .error e
  | .ok bmaj =>
    match cellsToNums (t.rows.map (fun r => r "BMIN")) with
    | .error e => .error e
    | .ok bmin =>
      match cellsToNums (t.rows.map (fun r => r "BPA")) with
      | .error e => .error e
      | .ok bpa =>
        Beams.new (some (.qty (.vec bmaj) .arcsec)) (some (.qty (.vec bmin) .arcsec))
          (some (.qty (.vec bpa) .arcsec)) none .arcsec (some (metaFromTable t))

/-- A concrete one-element collection used by the selector and setter
theorems below. -/
def sampleBeams : Beams :=
  ⟨.vec [1], (.vec [5], .deg), (.vec [5], .deg), (.vec [0], .deg), .arcsec,
   [MetaVal.dict []]⟩

/-- A concrete five-column, two-row binary table (`BMAJ`, `BMIN`, `BPA`,
`CHAN`, `POL`) for the table-adapter witness. -/
def c8T : BinTable :=
  ⟨["BMAJ", "BMIN", "BPA", "CHAN", "POL"],
   [fun k => if k = "CHAN" then .num 1 else if k = "POL" then .str "I" else .num 1,
    fun k => if k = "CHAN" then .num 2 else if k = "POL" then .str "Q" else .num 2]⟩

/-- The collection the table adapter produces from `c8T` (extracted for
the closed witness statement). -/
def c8B : Beams :=
  ((Beams.from_fits_bintable c8T).toOption.map Prod.fst).getD sampleBeams

/-- The user-supplied position angles of the areas-priority witness. -/
def c9P : ArgIn := .qty (.vec [30, 60]) .deg

/-- The bare solid-angle sequence of the areas-priority witness. -/
def c9A : ArgIn := .bare [0, 0]

/-- The collection constructed from `c9A` together with the explicit
position angles `c9P` (extracted for the closed witness statement). -/
def c9B : Beams :=
  ((Beams.new none none (some c9P) (some c9A) .arcsec none).toOption.map Prod.fst).getD
    sampleBeams

/-- The modelled square root vanishes at zero, like the source's. -/
theorem npSqrt_zero : npSqrt 0 = 0 := by
  unfold npSqrt
  norm_num [Int.sqrt]

/-- The `meta` setter never touches the geometric fields: the observed
object's `pas` is unchanged whether or not the assignment succeeds. -/
theorem set_meta_fst_pas (b : Beams) (v : List MetaVal) : ((b.set_meta v).1).pas = b.pas := by
  unfold Beams.set_meta
  split
  · rfl
  · split <;> rfl

/-- When the `meta` setter succeeds, the stored metadata is exactly the
assigned value. -/
theorem set_meta_ok_meta (b b1 : Beams) (v : List MetaVal) (h : b.set_meta v = (b1, none)) :
    b1.meta = v := by
  unfold Beams.set_meta at h
  split at h
  · simp at h
  · split at h
    · simp at h
      rw [← h]
    · simp at h

/-- Decomposition of a successful `finishNew`: the axes were present, the
area computation and metadata resolution succeeded, and the object is the
one produced by the `meta` setter. -/
theorem finishNew_ok_parts (m2 n3 : Option (PyArr × AUnit)) (p3 : PyArr × AUnit) (du : AUnit)
    (mt : Option (List MetaVal)) (ws ws' : List String) (b : Beams)
    (h : finishNew m2 n3 p3 du mt ws = .ok (b, ws')) :
    ∃ mj mn areaA mv, m2 = some mj ∧ n3 = some mn ∧ _to_area mj mn = .ok areaA ∧
      metaResolve mt mj = .ok mv ∧
      Beams.set_meta ⟨areaA, mj, mn, p3, du, []⟩ mv = (b, none) ∧ ws' = ws := by
  unfold finishNew at h
  split at h
  case h_2 => cases h
  next mj mn =>
    split at h
    · cases h
    next areaA heqA =>
      split at h
      · cases h
      next mv heqM =>
        split at h
        next b1 heqS =>
          simp at h
          exact ⟨mj, mn, areaA, mv, rfl, rfl, heqA, heqM, by rw [h.1] at heqS; exact heqS,
            h.2.symm⟩
        next e heqS => cases h

/-- A successful position-angle block keeps the supplied array: the unit
may be coerced, the values never are. -/
theorem pasStage_ok_arr (pa : ArgIn) (m2 : Option (PyArr × AUnit)) (p3 : PyArr × AUnit)
    (wsP : List String) (h : pasStage (some pa) m2 = .ok (p3, wsP)) : p3.1 = pa.arr := by
  simp only [pasStage] at h
  split at h
  · cases h
  next np heqL =>
    split at h
    · cases h
    next mj =>
      split at h
      · cases h
      next nm heqM =>
        split at h
        · cases h
        · split at h
          · cases h
          next un heqU =>
            split at h
            · simp at h
              rw [← h.1]
            · simp at h
              rw [← h.1]
              cases pa <;> simp [ArgIn.timesDeg, ArgIn.arr]

/-- Decomposition of a successful construction into its stages. -/
theorem new_ok_parts (m0 n0 p0 a0 : Option ArgIn) (du : AUnit) (mt : Option (List MetaVal))
    (b : Beams) (ws : List String) (h : Beams.new m0 n0 p0 a0 du mt = .ok (b, ws)) :
    ∃ m2 wsM n2 wsN p3 wsP n3,
      coerceAngle warnMajors (areasStage m0 n0 p0 a0).1 = .ok (m2, wsM) ∧
      coerceAngle warnMinors (areasStage m0 n0 p0 a0).2.1 = .ok (n2, wsN) ∧
      pasStage (areasStage m0 n0 p0 a0).2.2 m2 = .ok (p3, wsP) ∧
      minorsFinal n2 m2 = .ok n3 ∧
      finishNew m2 n3 p3 du mt (wsM ++ wsN ++ wsP) = .ok (b, ws) := by
  unfold Beams.new at h
  split at h
  · cases h
  next m2 wsM heqM =>
    split at h
    · cases h
    next n2 wsN heqN =>
      split at h
      · cases h
      next p3 wsP heqP =>
        split at h
        · cases h
        next n3 heqF =>
          exact ⟨m2, wsM, n2, wsN, p3, wsP, n3, heqM, heqN, heqP, heqF, h⟩

/-- Projecting the keys out of a key-value list built over a key list
returns that key list. -/
theorem map_fst_over_pairs {α β : Type} (f : α → β) (l : List α) :
    (l.map (fun k => (k, f k))).map Prod.fst = l := by
  induction l with
  | nil => rfl
  | cons a t ih => simp [ih]

/-- Claim C1 (code bug): the length invariant fails when `pas` is omitted.
Constructing from `majors = [1, 2] deg` alone succeeds and stores two
majors, two minors and two metadata entries, but the defaulted position
angles are the 0-dimensional scalar `0 deg` produced by
`np.zeros_like(pas) * u.deg` with `pas = None` (source line 65) — not a
zero-filled length-2 sequence, so `len(pas)` is undefined rather than 2. -/
theorem c1_pas_default_not_length_N :
    (Beams.new (some (.qty (.vec [1, 2]) .deg)) none none none .arcsec none).toOption.map
      (fun r => (r.1.pas, r.1.meta.length)) = some ((PyArr.scalar 0, AUnit.deg), 2) := by
  decide

/-- Claim C2 (code bug): supplying both an explicit major-axis sequence
`[1] deg` and a solid-angle sequence `[0]` stores the areas-derived majors
`[0] deg`, not the explicit `[1] deg` — the areas branch (source lines
37-41) reassigns `majors` before the "give specified values priority"
comment's block, which only coerces units. -/
theorem c2_areas_override_explicit_majors :
    (Beams.new (some (.qty (.vec [1]) .deg)) none none (some (.bare [0])) .arcsec
        none).toOption.map (fun r => r.1.majors) = some (PyArr.vec [0], AUnit.deg) ∧
    ((PyArr.vec [0], AUnit.deg) : PyArr × AUnit) ≠ (PyArr.vec [1], AUnit.deg) := by
  constructor
  · simp [Beams.new, areasStage, ArgIn.divConst, ArgIn.npSqrtA, ArgIn.timesDeg, ArgIn.scale,
      zerosLikeTimesDeg, coerceAngle, ArgIn.getUnit, ArgIn.arr, AUnit.isEquivDeg,
      AUnit.angleDim, AUnit.otherDim, pasStage, ArgIn.len, pyLen, minorsFinal, _to_area,
      finishNew, metaResolve, Beams.set_meta, npSqrt_zero, Except.toOption]
  · decide

/-- Claim C3 (code bug): on the spec's three-beam example collection,
`collection[1]` does not return the middle beam: `__getitem__` reads
`self.major` (source line 108) but the constructor stores the attribute
`majors` (source line 74), so integer indexing raises `AttributeError`. -/
theorem c3_getitem_int_attribute_error :
    (Beams.new (some (.qty (.vec [1, 2, 3]) .deg)) (some (.qty (.vec [1/2, 1, 3/2]) .deg))
        (some (.qty (.vec [0, 10, 20]) .deg)) none .arcsec none).toOption.map
      (fun r => Beams.getitem r.1 (.pyInt 1)) = some (.error .attributeError) := by
  decide

/-- Claim C4 (code bug): constructing from majors `[3, 4] deg` alone does
default the minors to the majors element-wise, but the position angles
become the 0-dimensional scalar `0 deg` (the `np.zeros_like(pas)` slip of
source line 65), not a length-2 all-zero sequence. -/
theorem c4_minors_default_ok_pas_scalar :
    (Beams.new (some (.qty (.vec [3, 4]) .deg)) none none none .arcsec none).toOption.map
      (fun r => (r.1.majors, r.1.minors, r.1.pas)) =
    some ((PyArr.vec [3, 4], AUnit.deg), (PyArr.vec [3, 4], AUnit.deg),
      (PyArr.scalar 0, AUnit.deg)) := by
  decide

/-- Claim C5 (code bug): a bare numeric majors sequence does not produce a
warning-and-coerce — `u.deg.is_equivalent(majors.unit)` (source line 45)
raises `AttributeError` because a plain sequence has no `.unit`.  And when
the input is a unit-carrying but non-angular quantity (here dimensionless),
the coercion multiplies by `u.deg` (source line 49) — degrees, regardless
of the configured `default_unit = arcsec` — while emitting the warning. -/
theorem c5_bare_majors_raises_and_deg_attached :
    Beams.new (some (.bare [1, 2])) none none none .arcsec none = .error .attributeError ∧
    (Beams.new (some (.qty (.vec [1, 2]) .dimensionless)) none none none .arcsec
        none).toOption.map (fun r => (r.1.majors, r.2)) =
      some ((PyArr.vec [1, 2], AUnit.mulU .dimensionless .deg), [warnMajors]) := by
  constructor
  · rfl
  · have he : (AUnit.mulU AUnit.dimensionless AUnit.deg).isEquivDeg = true := by
      simp [AUnit.isEquivDeg, AUnit.angleDim, AUnit.otherDim]
    simp [Beams.new, areasStage, coerceAngle, ArgIn.getUnit, ArgIn.arr, ArgIn.timesDeg,
      AUnit.isEquivDeg, AUnit.angleDim, AUnit.otherDim, pasStage, zerosLikeTimesDeg,
      minorsFinal, finishNew, _to_area, he, metaResolve, pyLen, Beams.set_meta,
      Except.toOption]

/-- Claim C6 (confirmed): for a collection of length `n`, assigning a
metadata sequence succeeds and stores it verbatim exactly when its length
is `n`; otherwise the setter raises `TypeError` and the stored metadata is
unchanged. -/
theorem c6_meta_setter_guarded (b : Beams) (n : ℕ) (hn : b.len = .ok n) (v : List MetaVal) :
    (v.length = n → b.set_meta v = ({ b with meta := v }, none)) ∧
    (v.length ≠ n →
      b.set_meta v = (b, some PyErr.typeError) ∧ (b.set_meta v).1.meta = b.meta) := by
  unfold Beams.len at hn
  unfold Beams.set_meta
  rw [hn]
  constructor
  · intro h
    simp [h]
  · intro h
    simp [h]

/-- Witness for C6 at a concrete one-beam collection: a length-1
assignment is stored, a length-0 assignment raises `TypeError`. -/
theorem c6_meta_setter_guarded_witness :
    Beams.set_meta sampleBeams [MetaVal.dict [("a", Cell.num 1)]] =
      ({ sampleBeams with meta := [MetaVal.dict [("a", Cell.num 1)]] }, none) ∧
    Beams.set_meta sampleBeams [] = (sampleBeams, some PyErr.typeError) := by
  constructor
  · exact (c6_meta_setter_guarded sampleBeams 1 (by rfl) [MetaVal.dict [("a", Cell.num 1)]]).1
      (by rfl)
  · exact ((c6_meta_setter_guarded sampleBeams 1 (by rfl) []).2 (by decide)).1

/-- Claim C7 counterexample: indexing with a string or a float does not
raise a type error — `__getitem__` falls through both `isinstance`
branches (source lines 107 and 112 have no `else`) and returns `None`. -/
theorem c7_invalid_index_counterexample :
    Beams.getitem sampleBeams (.pyStr "a") = .ok none ∧
    Beams.getitem sampleBeams (.pyFloat (5/2)) = .ok none := by
  decide

/-- Claim C7 as amended: indexing any collection with an index that is not
an integer, not a slice and not an ndarray does not raise; the method
returns no value (`None`). -/
theorem c7_invalid_index_falls_through (b : Beams) (s : String) (x : ℚ) :
    Beams.getitem b (.pyStr s) = .ok none ∧ Beams.getitem b (.pyFloat x) = .ok none := by
  constructor <;> rfl

/-- Claim C8 (confirmed): whenever the table adapter succeeds, the
collection's metadata has one entry per table row, in row order, and the
entry for each row is a dict whose keys are exactly the table's column
names other than `BMAJ`, `BPA`, `BMIN` (in column order) and whose values
are that row's values for those columns. -/
theorem c8_from_fits_bintable_meta_isolation (t : BinTable) (b : Beams) (ws : List String)
    (h : Beams.from_fits_bintable t = .ok (b, ws)) :
    b.meta.length = t.rows.length ∧
    ∀ j r, t.rows.get? j = some r → ∃ kvs,
      b.meta.get? j = some (MetaVal.dict kvs) ∧
      kvs.map Prod.fst =
        t.colnames.filter (fun k => !(k == "BMAJ" || k == "BPA" || k == "BMIN")) ∧
      ∀ q ∈ kvs, q.2 = r q.1 := by
  have hbm : b.meta = metaFromTable t := by
    unfold Beams.from_fits_bintable at h
    split at h
    · cases h
    next bmaj h1 =>
      split at h
      · cases h
      next bmin h2 =>
        split at h
        · cases h
        next bpa h3 =>
          obtain ⟨m2, wsM, n2, wsN, p3, wsP, n3, hM, hN, hP, hF, hFin⟩ :=
            new_ok_parts _ _ _ _ _ _ _ _ h
          obtain ⟨mj, mn, areaA, mv, hm2, hn3, hA, hMv, hS, hws⟩ :=
            finishNew_ok_parts _ _ _ _ _ _ _ _ hFin
          have hmv : mv = metaFromTable t := by
            simp [metaResolve] at hMv
            exact hMv.symm
          rw [← hmv]
          exact set_meta_ok_meta _ _ _ hS
  constructor
  · rw [hbm]
    simp [metaFromTable]
  · intro j r hr
    refine ⟨(t.colnames.filter (fun k => !(k == "BMAJ" || k == "BPA" || k == "BMIN"))).map
      (fun k => (k, r k)), ?_, ?_, ?_⟩
    · rw [hbm]
      unfold metaFromTable
      rw [List.get?_map, hr]
      rfl
    · exact map_fst_over_pairs _ _
    · intro q hq
      simp [List.mem_map] at hq
      obtain ⟨k, hk, rfl⟩ := hq
      rfl

/-- Witness for C8 at the concrete table `c8T` (`BMAJ, BMIN, BPA, CHAN,
POL`; two rows): the adapter succeeds, the metadata has two entries, and
each entry holds exactly the `CHAN` and `POL` values of its row. -/
theorem c8_from_fits_bintable_meta_isolation_witness :
    Beams.from_fits_bintable c8T = .ok (c8B, []) ∧
    c8B.meta.length = c8T.rows.length ∧
    c8B.meta.get? 0 = some (MetaVal.dict [("CHAN", Cell.num 1), ("POL", Cell.str "I")]) ∧
    c8B.meta.get? 1 = some (MetaVal.dict [("CHAN", Cell.num 2), ("POL", Cell.str "Q")]) := by
  refine ⟨by rfl, (c8_from_fits_bintable_meta_isolation c8T c8B [] (by rfl)).1, by rfl, by rfl⟩

/-- Claim C9 (confirmed): when a solid-angle sequence is supplied together
with an explicit position-angle sequence and construction succeeds, the
stored position angles are the all-zero sequence shaped like `areas`
(source line 41) — the user-supplied angles are discarded. -/
theorem c9_areas_zero_pas_override (m0 n0 : Option ArgIn) (p a : ArgIn) (du : AUnit)
    (mt : Option (List MetaVal)) (b : Beams) (ws : List String)
    (h : Beams.new m0 n0 (some p) (some a) du mt = .ok (b, ws)) :
    b.pas.1 = PyArr.vec (List.replicate a.length0 0) := by
  obtain ⟨m2, wsM, n2, wsN, p3, wsP, n3, hM, hN, hP, hF, hFin⟩ :=
    new_ok_parts _ _ _ _ _ _ _ _ h
  obtain ⟨mj, mn, areaA, mv, hm2, hn3, hA, hMv, hS, hws⟩ :=
    finishNew_ok_parts _ _ _ _ _ _ _ _ hFin
  have hbpas : b.pas = p3 := by
    have h1 := congrArg (fun pr => pr.1.pas) hS
    simp only [] at h1
    rw [set_meta_fst_pas] at h1
    exact h1.symm
  have hz : p3.1 = (zerosLikeTimesDeg (some a)).1 := by
    simp only [areasStage] at hP
    exact pasStage_ok_arr _ _ _ _ hP
  rw [hbpas, hz]
  cases a with
  | bare xs => simp [zerosLikeTimesDeg, ArgIn.length0]
  | qty arr un =>
    cases arr with
    | vec xs => simp [zerosLikeTimesDeg, ArgIn.length0]
    | scalar x =>
      simp only [areasStage, zerosLikeTimesDeg, pasStage, ArgIn.len, pyLen] at hP
      simp at hP

/-- Witness for C9: bare areas `[0, 0]` together with the explicit
position angles `[30, 60] deg` construct successfully, and the stored
position angles are `[0, 0]`. -/
theorem c9_areas_zero_pas_override_witness :
    Beams.new none none (some c9P) (some c9A) .arcsec none = .ok (c9B, []) ∧
    c9B.pas.1 = PyArr.vec (List.replicate c9A.length0 0) ∧
    c9B.pas.1 = PyArr.vec [0, 0] := by
  refine ⟨by rfl, c9_areas_zero_pas_override none none c9P c9A .arcsec none c9B [] (by rfl),
    by rfl⟩

/-- Claim C10 (confirmed): the `meta` setter checks only the length of the
assigned sequence — a matching-length sequence all of whose elements are
non-mapping values is accepted and stored verbatim. -/
theorem c10_meta_setter_elementwise_unchecked (b : Beams) (n : ℕ) (hn : b.len = .ok n)
    (zs : List ℤ) (hl : zs.length = n) :
    b.set_meta (zs.map MetaVal.raw) = ({ b with meta := zs.map MetaVal.raw }, none) := by
  unfold Beams.len at hn
  unfold Beams.set_meta
  rw [hn]
  simp [hl]

/-- Witness for C10: a single non-mapping metadata element is stored
verbatim on the one-beam sample collection. -/
theorem c10_meta_setter_elementwise_unchecked_witness :
    Beams.set_meta sampleBeams [MetaVal.raw 7] =
      ({ sampleBeams with meta := [MetaVal.raw 7] }, none) :=
  c10_meta_setter_elementwise_unchecked sampleBeams 1 (by rfl) [7] (by rfl)

end RadioBeam
